import Mathlib

/-!
Verification of the `scalable_engine` crate (src/scalable_engine/src/lib.rs):
a thin `Engine` facade over a Tokio multi-thread runtime, exposing
`new`, `new_auto`, `run_tasks` (batch via `block_on(join_all ...)`) and
`spawn` (detached, returning a `JoinHandle`).

The embedding models tasks as deterministic units of work that either
return a value or panic.  Panics — which in Rust unwind a thread or abort —
are modelled by the `error` side of `Except`; an `Except.error` produced by
an operation whose Rust counterpart panics is a fatal abort, never a
recoverable value handed to the caller.
-/

namespace ScalableEngine

/-- A deterministic asynchronous unit of work yielding a `T`: it either
completes with a value or panics during its own execution with a message.
This embeds the `F: Future<Output = T>` arguments of `run_tasks` and
`spawn` for the deterministic tasks the spec quantifies over. -/
inductive Task (T : Type) where
  | ret (v : T) : Task T
  | panicTask (msg : String) : Task T
deriving DecidableEq, Repr

/-- Driving a task to completion: the value it returns, or the panic it
raises while executing. -/
def Task.run {T : Type} : Task T → Except String T
  | .ret v => .ok v
  | .panicTask m => .error m

/-- The Tokio runtime built by `Builder::new_multi_thread`: the embedding
keeps the one configuration datum the spec talks about, the worker count. -/
structure Runtime where
  worker_threads : Nat
deriving DecidableEq, Repr

/-- The `Engine` struct of the source: a wrapper owning a `Runtime`. -/
structure Engine where
  runtime : Runtime
deriving DecidableEq, Repr

/-- The fatal (panicking, non-recoverable) outcomes of `Engine::new`:
`Builder::worker_threads` panics when given 0, and `build()` errors
(e.g. resource exhaustion when spawning threads) are turned into panics by
the `.expect("failed to build runtime")` in the source.  Neither is ever
returned to the caller as a recoverable error value. -/
inductive FatalAbort where
  | workerThreadsZero : FatalAbort
  | buildFailed : FatalAbort
deriving DecidableEq, Repr

/-- `Engine::new(worker_threads)` from the source:
`Builder::new_multi_thread().worker_threads(worker_threads).enable_all().build().expect(...)`.
Tokio documents that `worker_threads` panics if the value is 0; whether
`build()` itself succeeds depends on the environment (thread resources),
which the embedding passes in as the flag `build_ok`.  A `.error` result
is a panic of the calling thread, not a value the Rust caller receives. -/
def Engine.new (worker_threads : Nat) (build_ok : Bool) : Except FatalAbort Engine :=
  if worker_threads = 0 then
    .error .workerThreadsZero
  else if build_ok then
    .ok { runtime := { worker_threads := worker_threads } }
  else
    .error .buildFailed

/-- `Engine::new_auto()` from the source:
`let workers = num_cpus::get(); Self::new(workers)`.
The host parallelism query `num_cpus::get()` is performed afresh inside
every call; the embedding indexes the host environment by call number:
`env n` is the value the n-th query returns.  `call` says which invocation
this is, so the body reads `env call` — nothing is cached from earlier
calls. -/
def Engine.new_auto (env : Nat → Nat) (call : Nat) (build_ok : Bool) :
    Except FatalAbort Engine :=
  Engine.new (env call) build_ok

/-- `futures::future::join_all` over deterministic tasks: the sub-futures
are polled in input order and their outputs collected into a vector in
that same order; a panic in a task unwinds out of the poll at the first
panicking task in input order, discarding every output collected so far. -/
def join_all {T : Type} : List (Task T) → Except String (List T)
  | [] => .ok []
  | t :: ts =>
    match t.run with
    | .error m => .error m
    | .ok v =>
      match join_all ts with
      | .error m => .error m
      | .ok vs => .ok (v :: vs)

/-- `Runtime::block_on`: runs the given future to completion on the thread
that calls `block_on`, blocking it, and yields the future's outcome — a
panic of the future unwinds the calling thread.  For the pure outcome of a
deterministic future this is the identity on the outcome. -/
def Runtime.block_on {α : Type} (_r : Runtime) (outcome : Except String α) :
    Except String α :=
  outcome

/-- `Engine::run_tasks(tasks)` from the source:
`self.runtime.block_on(async { join_all(tasks).await })`.
An `.ok` result is the vector returned to the caller; an `.error` result
is a panic unwinding the calling thread out of `block_on`. -/
def Engine.run_tasks {T : Type} (e : Engine) (tasks : List (Task T)) :
    Except String (List T) :=
  e.runtime.block_on (join_all tasks)

/-- Where a unit of work is executed: on the thread that called into the
engine, or on worker number `i` of the pool. -/
inductive ExecContext where
  | caller : ExecContext
  | worker (i : Nat) : ExecContext
deriving DecidableEq, Repr

/-- Execution placement of the tasks of one `run_tasks` batch.  Tokio
documents that `Runtime::block_on` runs the given future on the current
(calling) thread; `join_all` polls every sub-future inside that future's
own poll, and `run_tasks` never hands any task to `Runtime::spawn`.  Hence
every task of the batch is executed on the caller's thread. -/
def Engine.run_tasks_contexts {T : Type} (_e : Engine) (tasks : List (Task T)) :
    List ExecContext :=
  tasks.map (fun _ => ExecContext.caller)

/-- The error a Tokio `JoinHandle` reports when the task behind it
panicked: awaiting the handle yields `Err(JoinError)` rather than
unwinding the awaiting context. -/
inductive JoinError where
  | panicked (msg : String) : JoinError
deriving DecidableEq, Repr

/-- The `tokio::task::JoinHandle<T>` returned by `Engine::spawn`: a
caller-owned reference to the eventual outcome of the spawned task. -/
structure JoinHandle (T : Type) where
  task : Task T
deriving DecidableEq, Repr

/-- Awaiting a `JoinHandle`: Tokio documents that this yields `Ok(value)`
when the task completed and `Err(JoinError)` when the task panicked — the
panic is caught by the runtime and surfaced as an error value, it does not
unwind the awaiting context. -/
def JoinHandle.join {T : Type} (h : JoinHandle T) : Except JoinError T :=
  match h.task.run with
  | .ok v => .ok v
  | .error m => .error (.panicked m)

/-- `Engine::spawn(future)` from the source: `self.runtime.spawn(future)`.
Tokio's `Runtime::spawn` submits the future to the pool and returns its
`JoinHandle` at once; the spawn call itself performs none of the task's
execution (the handle still carries the unrun task). -/
def Engine.spawn {T : Type} (_e : Engine) (t : Task T) : JoinHandle T :=
  { task := t }

/-- Status of a slot on the pool, following the per-task state machine of
the spec: a spawned task is first scheduled, and later driven by a worker
to a completed value or a recorded failure. -/
inductive TaskStatus (T : Type) where
  | scheduled (t : Task T) : TaskStatus T
  | completed (v : T) : TaskStatus T
  | failed (msg : String) : TaskStatus T
deriving DecidableEq, Repr

/-- The pool's slots, one per task submitted via `spawn`, in submission
order.  This is the operational view of the scheduler the engine delegates
to: `spawn` appends a scheduled slot, and workers later run slots
independently of the submitting thread. -/
structure Pool (T : Type) where
  slots : List (TaskStatus T)
deriving DecidableEq, Repr

/-- The `spawn` submission step on the pool: the task is enqueued as
`scheduled` and the index of its slot is handed back to the caller
immediately — control returns to the caller with the task not yet run. -/
def Pool.spawnOp {T : Type} (p : Pool T) (t : Task T) : Pool T × Nat :=
  ({ slots := p.slots ++ [.scheduled t] }, p.slots.length)

/-- One worker step, taken concurrently with (and independently of) the
submitting thread: the worker picks the scheduled task in slot `i` and
runs it to completion, recording its value or its panic. -/
def Pool.workerStep {T : Type} (p : Pool T) (i : Nat) : Pool T :=
  match p.slots.get? i with
  | some (.scheduled t) =>
    { slots :=
        p.slots.set i
          (match t.run with
           | .ok v => .completed v
           | .error m => .failed m) }
  | _ => p

/-- Spec-side description of `new_auto`, written from the spec's words:
equivalent to `new(k)` where `k` is the parallelism the host reports at
the time of the call (here, to the `call`-th query), with no caching
across calls. -/
def new_auto_spec (env : Nat → Nat) (call : Nat) (build_ok : Bool) :
    Except FatalAbort Engine :=
  Engine.new (env call) build_ok

lemma join_all_map_ret {T : Type} (vals : List T) :
    join_all (vals.map Task.ret) = .ok vals := by
  induction vals with
  | nil => rfl
  | cons v vs ih => simp [join_all, Task.run, ih]

lemma join_all_error_of_panic_mem {T : Type} (tasks : List (Task T)) (m : String)
    (h : Task.panicTask m ∈ tasks) : ∃ m', join_all tasks = .error m' := by
  induction tasks with
  | nil => cases h
  | cons t ts ih =>
    cases h with
    | head => exact ⟨m, rfl⟩
    | tail _ hmem =>
      obtain ⟨m', hm'⟩ := ih hmem
      cases t with
      | ret v => exact ⟨m', by simp [join_all, Task.run, hm']⟩
      | panicTask m2 => exact ⟨m2, rfl⟩

lemma get?_append_singleton {α : Type} (l : List α) (a : α) :
    (l ++ [a]).get? l.length = some a := by
  induction l with
  | nil => rfl
  | cons x xs ih => simp [ih]

lemma get?_set_self {α : Type} (l : List α) (i : Nat) (a : α)
    (h : i < l.length) : (l.set i a).get? i = some a := by
  induction l generalizing i with
  | nil => cases h
  | cons x xs ih =>
    cases i with
    | zero => rfl
    | succ j => simpa using ih j (Nat.lt_of_succ_lt_succ h)

/-- Claim C1: for every ordered batch of deterministic tasks (task i
returning the i-th value), run_tasks returns a sequence of the same
length whose element i is task i's result; in particular, for every k, a
batch of k tasks where task i returns i + 1 yields exactly [1, 2, ..., k]
(that is, List.range' 1 k). -/
theorem run_tasks_positional {T : Type} (e : Engine) (vals : List T) (k : Nat) :
    e.run_tasks (vals.map Task.ret) = .ok vals ∧
    (vals.map Task.ret).length = vals.length ∧
    e.run_tasks ((List.range k).map (fun i => Task.ret (i + 1))) =
      .ok (List.range' 1 k) := by
  refine ⟨join_all_map_ret vals, by simp, ?_⟩
  have h2 : (List.range k).map (fun i => i + 1) = List.range' 1 k := by
    simp [List.range'_eq_map_range, Nat.add_comm]
  calc e.run_tasks ((List.range k).map (fun i => Task.ret (i + 1)))
      = join_all (((List.range k).map (fun i => i + 1)).map Task.ret) := by
        rw [List.map_map]
        rfl
    _ = .ok ((List.range k).map (fun i => i + 1)) := join_all_map_ret _
    _ = .ok (List.range' 1 k) := by rw [h2]

/-- Claim C2: if any task of the batch panics, run_tasks propagates the
failure to its caller as a panic unwinding the calling thread (the error
side of the embedding), and no partial result list from the sibling tasks
is ever returned. -/
theorem run_tasks_panic_aborts {T : Type} (e : Engine) (tasks : List (Task T))
    (m : String) (h : Task.panicTask m ∈ tasks) :
    (∃ m', e.run_tasks tasks = .error m') ∧
    ∀ l : List T, e.run_tasks tasks ≠ .ok l := by
  obtain ⟨m', hm'⟩ := join_all_error_of_panic_mem tasks m h
  refine ⟨⟨m', hm'⟩, ?_⟩
  intro l hl
  rw [show e.run_tasks tasks = join_all tasks from rfl, hm'] at hl
  exact Except.noConfusion hl

theorem run_tasks_panic_aborts_witness :
    ((∃ m', Engine.run_tasks { runtime := { worker_threads := 2 } }
        [Task.ret 1, Task.panicTask "boom", Task.ret 3] = .error m') ∧
      ∀ l : List Nat, Engine.run_tasks { runtime := { worker_threads := 2 } }
        [Task.ret 1, Task.panicTask "boom", Task.ret 3] ≠ .ok l) :=
  run_tasks_panic_aborts { runtime := { worker_threads := 2 } }
    [Task.ret 1, Task.panicTask "boom", Task.ret 3] "boom" (by simp)

/-- Claim C3: awaiting the handle returned by spawn yields the task's
value when the task completes, and yields a failure outcome distinct from
every success outcome — not an unwind of the awaiting context — when the
task panics during execution. -/
theorem spawn_join_outcomes {T : Type} (e : Engine) (t : Task T) :
    (∀ v, t = Task.ret v → (e.spawn t).join = .ok v) ∧
    (∀ m, t = Task.panicTask m →
      (e.spawn t).join = .error (JoinError.panicked m) ∧
      ∀ v, (e.spawn t).join ≠ .ok v) := by
  constructor
  · rintro v rfl; rfl
  · rintro m rfl
    refine ⟨rfl, ?_⟩
    intro v hv
    exact Except.noConfusion hv

theorem spawn_join_outcomes_witness :
    (Engine.spawn { runtime := { worker_threads := 1 } } (Task.ret 7)).join
      = .ok 7 ∧
    (Engine.spawn { runtime := { worker_threads := 1 } }
        (Task.panicTask "oops" : Task Nat)).join
      = .error (JoinError.panicked "oops") :=
  ⟨(spawn_join_outcomes { runtime := { worker_threads := 1 } }
      (Task.ret 7)).1 7 rfl,
   ((spawn_join_outcomes { runtime := { worker_threads := 1 } }
      (Task.panicTask "oops" : Task Nat)).2 "oops" rfl).1⟩

/-- Claim C4 counterexample: on an engine built with 4 workers and the
spec's own 10-task batch, every task of the batch is executed on the
calling thread — block_on polls join_all's sub-futures on the current
thread and run_tasks hands nothing to the pool — so no task runs on any
of the 4 workers, refuting that the batch is executed across the workers. -/
theorem run_tasks_contexts_no_worker :
    Engine.run_tasks_contexts { runtime := { worker_threads := 4 } }
        ((List.range 10).map (fun i => Task.ret (i + 1)))
      = List.replicate 10 ExecContext.caller ∧
    ((Engine.run_tasks_contexts { runtime := { worker_threads := 4 } }
        ((List.range 10).map (fun i => Task.ret (i + 1)))).any
      (fun c => match c with
        | ExecContext.worker _ => true
        | ExecContext.caller => false)) = false := by
  constructor <;> rfl

/-- Claim C4 as amended: in every call to run_tasks, all tasks of the
batch execute on the calling thread, cooperatively interleaved inside the
runtime's block_on rather than distributed across the pool's workers,
and the calling thread blocks until every task has produced a value,
returning one result per task in input order. -/
theorem run_tasks_caller_thread {T : Type} (e : Engine)
    (tasks : List (Task T)) (vals : List T) :
    Engine.run_tasks_contexts e tasks
      = List.replicate tasks.length ExecContext.caller ∧
    e.run_tasks (vals.map Task.ret) = .ok vals := by
  constructor
  · simp [Engine.run_tasks_contexts]
  · exact join_all_map_ret vals

/-- Claim C5: new_auto is equivalent to new applied to the parallelism
value the host reports to the query performed inside that very call —
the spec-side description new_auto_spec coincides with the source-side
new_auto on every environment and call number, so nothing is cached
across calls; when that value is positive and the build succeeds, the
resulting pool has exactly that worker count. -/
theorem new_auto_refines_spec (env : Nat → Nat) (call : Nat) (ok : Bool) :
    Engine.new_auto env call ok = new_auto_spec env call ok ∧
    Engine.new_auto env call ok = Engine.new (env call) ok ∧
    (env call ≠ 0 → ok = true →
      ∃ e, Engine.new_auto env call ok = .ok e ∧
        e.runtime.worker_threads = env call) := by
  refine ⟨rfl, rfl, ?_⟩
  intro h hok
  subst hok
  exact ⟨{ runtime := { worker_threads := env call } },
    by simp [Engine.new_auto, Engine.new, h], rfl⟩

theorem new_auto_refines_spec_witness :
    Engine.new_auto (fun _ => 4) 0 true = new_auto_spec (fun _ => 4) 0 true ∧
    (4 : Nat) ≠ 0 ∧
    ∃ e, Engine.new_auto (fun _ => 4) 0 true = .ok e ∧
      e.runtime.worker_threads = 4 :=
  ⟨(new_auto_refines_spec (fun _ => 4) 0 true).1, by decide,
   (new_auto_refines_spec (fun _ => 4) 0 true).2.2 (by decide) rfl⟩

/-- Claim C6: whenever the scheduler cannot be constructed — zero workers
requested, or the build failing for environmental reasons — new ends in a
fatal abort (an error of the embedding, standing for a panic the Rust
caller never receives as a value); otherwise it returns an Engine whose
pool has exactly worker_threads workers. -/
theorem new_outcomes (w : Nat) (ok : Bool) :
    (w = 0 → Engine.new w ok = .error FatalAbort.workerThreadsZero) ∧
    (w ≠ 0 → ok = false → Engine.new w ok = .error FatalAbort.buildFailed) ∧
    (w ≠ 0 → ok = true →
      Engine.new w ok = .ok { runtime := { worker_threads := w } }) := by
  refine ⟨?_, ?_, ?_⟩
  · rintro rfl; rfl
  · intro hw hok; subst hok; simp [Engine.new, hw]
  · intro hw hok; subst hok; simp [Engine.new, hw]

theorem new_outcomes_witness :
    Engine.new 0 true = .error FatalAbort.workerThreadsZero ∧
    Engine.new 4 false = .error FatalAbort.buildFailed ∧
    Engine.new 4 true = .ok { runtime := { worker_threads := 4 } } :=
  ⟨(new_outcomes 0 true).1 rfl,
   (new_outcomes 4 false).2.1 (by decide) rfl,
   (new_outcomes 4 true).2.2 (by decide) rfl⟩

/-- Claim C7: run_tasks on an empty batch returns the empty sequence at
once — join_all of no tasks is already complete, no task is awaited and
none is executed anywhere. -/
theorem run_tasks_empty {T : Type} (e : Engine) :
    e.run_tasks ([] : List (Task T)) = .ok [] ∧
    Engine.run_tasks_contexts e ([] : List (Task T)) = [] :=
  ⟨rfl, rfl⟩

/-- Claim C8: spawn hands the task to the pool and returns at once
without performing any of its execution — the returned handle still
carries the unrun task, the slot the pool records for it is still in the
scheduled state (no completed value is available when spawn returns),
and a later worker step, independent of the submitting thread, drives
the task to its value or its recorded failure. -/
theorem spawn_nonblocking {T : Type} (e : Engine) (p : Pool T) (t : Task T) :
    Engine.spawn e t = { task := t } ∧
    (p.spawnOp t).2 = p.slots.length ∧
    (p.spawnOp t).1.slots.get? (p.spawnOp t).2 = some (TaskStatus.scheduled t) ∧
    (∀ v : T, (p.spawnOp t).1.slots.get? (p.spawnOp t).2 ≠
      some (TaskStatus.completed v)) ∧
    ((p.spawnOp t).1.workerStep (p.spawnOp t).2).slots.get? (p.spawnOp t).2 =
      some (match t.run with
        | .ok v => TaskStatus.completed v
        | .error m => TaskStatus.failed m) := by
  have hget : (p.spawnOp t).1.slots.get? (p.spawnOp t).2 =
      some (TaskStatus.scheduled t) := get?_append_singleton p.slots _
  refine ⟨rfl, rfl, hget, ?_, ?_⟩
  · intro v hv
    rw [hget] at hv
    simp at hv
  · unfold Pool.workerStep
    rw [hget]
    exact get?_set_self _ _ _ (by simp [Pool.spawnOp])

/-- Claim C9: run_tasks over pure deterministic tasks is a function of
the task list alone — two engines built with any two worker counts (or
the same engine run twice) produce identical output sequences. -/
theorem run_tasks_pool_independent {T : Type} (w w' : Nat) (ok ok' : Bool)
    (e e' : Engine) (tasks : List (Task T))
    (_h : Engine.new w ok = .ok e) (_h' : Engine.new w' ok' = .ok e') :
    e.run_tasks tasks = e'.run_tasks tasks :=
  rfl

theorem run_tasks_pool_independent_witness :
    Engine.run_tasks { runtime := { worker_threads := 1 } } [Task.ret 5] =
      Engine.run_tasks { runtime := { worker_threads := 4 } } [Task.ret 5] :=
  run_tasks_pool_independent 1 4 true true
    { runtime := { worker_threads := 1 } }
    { runtime := { worker_threads := 4 } }
    [Task.ret 5] rfl rfl

/-- Claim C10: provided the host parallelism query reports at least 1 (as
num_cpus guarantees), new_auto never reaches the zero-worker construction
failure; when the build succeeds it yields an engine. -/
theorem new_auto_never_zero_workers (env : Nat → Nat) (call : Nat) (ok : Bool)
    (h : 1 ≤ env call) :
    Engine.new_auto env call ok ≠ .error FatalAbort.workerThreadsZero ∧
    (ok = true → ∃ e, Engine.new_auto env call ok = .ok e) := by
  have hz : env call ≠ 0 := Nat.one_le_iff_ne_zero.mp h
  constructor
  · intro hc
    cases ok <;> simp [Engine.new_auto, Engine.new, hz] at hc
  · rintro rfl
    exact ⟨{ runtime := { worker_threads := env call } },
      by simp [Engine.new_auto, Engine.new, hz]⟩

theorem new_auto_never_zero_workers_witness :
    (1 ≤ 4) ∧
    Engine.new_auto (fun _ => 4) 0 true ≠ .error FatalAbort.workerThreadsZero :=
  ⟨by decide, (new_auto_never_zero_workers (fun _ => 4) 0 true (by decide)).1⟩

end ScalableEngine
